import Mathlib

/-!
Verification of the whistleblowing-api report access-control core.

This file shallowly embeds the report data model (models/Report.js, i.e.
the `reportSchema` in server.js), its Mongoose pre-save hooks, and the
controller operations of controllers/reporterController.js and
controllers/adminController.js that the specification talks about.

Modelling conventions, each matching how the JavaScript source treats the
corresponding collaborator:
* SHA-256 and bcrypt are opaque one-way functions in the source (crypto /
  bcryptjs library calls); they are embedded symbolically as free
  constructors (`Sha256Digest.mk`, `BcryptHash.mk`), which makes them
  deterministic, injective and comparable - exactly the interface the
  source relies on.  `bcryptCompare` succeeds exactly on the hashed input,
  as `bcrypt.compare` does.
* MongoDB ObjectIds are natural numbers; `findOne` on an indexed key is
  `List.find?`; a save of a loaded document replaces the record with the
  same id (`putReport`).
* JavaScript truthiness of request-body string fields is `truthy` on
  `Option String` (absent and empty string are both falsy).
* Mongoose marks paths assigned by the caller as modified, but paths
  filled in from schema defaults are placed in the separate `default`
  state, so `isModified("status")` is false at first save of a document
  whose status came from the schema default.  `LoadedDoc.statusModified`
  embeds this modified-path tracking for the one path the hooks inspect.
* Mongoose validation (the status enum of the schema) runs before the
  user pre-save hooks; `runSave` models both.
* `populate` of category/agency display names, ObjectId-format checks on
  path parameters, and the audit-log sink are elided: no claim depends on
  them.
-/

namespace WB

abbrev ObjectId := Nat

/-- Symbolic SHA-256 digest: the value of
`crypto.createHash("sha256").update(s).digest("hex")`. -/
structure Sha256Digest where
  preimage : String
deriving DecidableEq, Repr

/-- The deterministic lookup digest (server.js pre-save hook and
getReportByPassword both compute it this way). -/
def sha256Hex (s : String) : Sha256Digest := ⟨s⟩

/-- Symbolic bcrypt hash: the value of `bcrypt.hash(s, salt)`. -/
structure BcryptHash where
  salt : Nat
  preimage : String
deriving DecidableEq, Repr

def bcryptHash (s : String) (salt : Nat) : BcryptHash := ⟨salt, s⟩

/-- `bcrypt.compare(candidate, stored)`: succeeds exactly on the input the
stored hash was derived from. -/
def bcryptCompare (candidate : String) (stored : BcryptHash) : Bool :=
  candidate == stored.preimage

/-- JavaScript truthiness of an optional request-body string: `undefined`
and `""` are falsy. -/
def truthy : Option String → Bool
  | none => false
  | some s => !(s == "")

/-- One entry of the `evidenceFiles` array of reportSchema. -/
structure EvidenceFile where
  filePath : String
  fileType : String
  fileName : String
  uploadedAt : Nat
deriving DecidableEq, Repr

/-- One entry of the `comments` array of reportSchema. -/
structure Comment where
  user : Option ObjectId
  role : String
  message : String
  createdAt : Nat
deriving DecidableEq, Repr

/-- One entry of the `history` array of reportSchema (status audit trail). -/
structure HistoryEntry where
  status : String
  updatedAt : Nat
deriving DecidableEq, Repr

/-- A persisted Report document (reportSchema in server.js).  `password`
and `passwordKey` are always set by the creation pre-save hook, so they
are total here; `password` carries `select: false` in the schema, which
only affects which queries load it. -/
structure Report where
  id : ObjectId
  caseID : String
  reporterType : String
  reporterName : Option String
  reporterEmail : Option String
  reporterPhone : Option String
  title : String
  description : String
  location : Option String
  status : String
  agencyAssigned : Option ObjectId
  password : BcryptHash
  passwordKey : Sha256Digest
  category : Option ObjectId
  isResolved : Bool
  internalNotes : Option String
  evidenceFiles : List EvidenceFile
  comments : List Comment
  history : List HistoryEntry
deriving DecidableEq, Repr

/-- The plaintext secret a stored report's credential hash was derived
from (symbolically recoverable from the free bcrypt constructor). -/
def plainOf (r : Report) : String := r.password.preimage

/-- A Category document (models/Category.js), reduced to the fields the
embedded operations consult. -/
structure Category where
  id : ObjectId
  name : String
deriving DecidableEq, Repr

/-- An Agency document (models/Agency.js), reduced to the fields the
embedded operations consult. -/
structure Agency where
  id : ObjectId
  name : String
deriving DecidableEq, Repr

/-- The persistent state the embedded operations read and write. -/
structure Store where
  reports : List Report
  categories : List Category
  agencies : List Agency
deriving DecidableEq, Repr

/-- An uploaded file as multer-s3 presents it on `req.files`. -/
structure UploadedFile where
  location : String
  mimetype : String
  originalname : String
deriving DecidableEq, Repr

/-- An HTTP outcome: either an error response (status code and message)
or a success response with a payload. -/
inductive RestResult (α : Type) where
  | reject (code : Nat) (msg : String)
  | ok (code : Nat) (msg : String) (data : α)
deriving DecidableEq, Repr

def RestResult.isOk {α : Type} : RestResult α → Bool
  | .ok _ _ _ => true
  | .reject _ _ => false

def RestResult.isReject {α : Type} (r : RestResult α) : Bool := !r.isOk

/-- The status enum of reportSchema, also the `allowedStatuses` list of
adminController.updateReportStatus. -/
def validStatus (s : String) : Bool :=
  s == "pending" || s == "under review" || s == "resolved" || s == "closed"

/-- `report.getPublicData()` output: `toObject()` with `password`,
`passwordKey` and `__v` deleted and, when the in-memory document carries
the transient `_plainPassword`, a `generatedPassword` field. -/
structure PublicData where
  id : ObjectId
  caseID : String
  reporterType : String
  reporterName : Option String
  reporterEmail : Option String
  reporterPhone : Option String
  title : String
  description : String
  location : Option String
  status : String
  agencyAssigned : Option ObjectId
  category : Option ObjectId
  isResolved : Bool
  internalNotes : Option String
  evidenceFiles : List EvidenceFile
  comments : List Comment
  history : List HistoryEntry
  generatedPassword : Option String
deriving DecidableEq, Repr

/-- reportSchema.methods.getPublicData.  `plainPassword` is the transient
`_plainPassword` property: set only on the in-memory document right after
creation, never persisted, and included only when truthy. -/
def getPublicData (r : Report) (plainPassword : Option String) : PublicData :=
  { id := r.id, caseID := r.caseID, reporterType := r.reporterType,
    reporterName := r.reporterName, reporterEmail := r.reporterEmail,
    reporterPhone := r.reporterPhone, title := r.title,
    description := r.description, location := r.location,
    status := r.status, agencyAssigned := r.agencyAssigned,
    category := r.category, isResolved := r.isResolved,
    internalNotes := r.internalNotes, evidenceFiles := r.evidenceFiles,
    comments := r.comments, history := r.history,
    generatedPassword := if truthy plainPassword then plainPassword else none }

/-- The JSON serialisation of a report (the `toJSON` transform of
reportSchema): `password`, `passwordKey` and `__v` are deleted (kept here
as always-`none` options to make the deletion visible), and for anonymous
reports the three reporter identity fields are deleted as well. -/
structure JsonReport where
  id : ObjectId
  caseID : String
  reporterType : String
  reporterName : Option String
  reporterEmail : Option String
  reporterPhone : Option String
  title : String
  description : String
  location : Option String
  status : String
  agencyAssigned : Option ObjectId
  password : Option BcryptHash
  passwordKey : Option Sha256Digest
  category : Option ObjectId
  isResolved : Bool
  internalNotes : Option String
  evidenceFiles : List EvidenceFile
  comments : List Comment
  history : List HistoryEntry
deriving DecidableEq, Repr

def toJSON (r : Report) : JsonReport :=
  { id := r.id, caseID := r.caseID, reporterType := r.reporterType,
    reporterName := if r.reporterType == "anonymous" then none else r.reporterName,
    reporterEmail := if r.reporterType == "anonymous" then none else r.reporterEmail,
    reporterPhone := if r.reporterType == "anonymous" then none else r.reporterPhone,
    title := r.title, description := r.description, location := r.location,
    status := r.status, agencyAssigned := r.agencyAssigned,
    password := none, passwordKey := none,
    category := r.category, isResolved := r.isResolved,
    internalNotes := r.internalNotes, evidenceFiles := r.evidenceFiles,
    comments := r.comments, history := r.history }

/-- `Report.findOne({ passwordKey })`: indexed equality lookup by the
deterministic digest of the candidate secret (step 1 and 2 of
getReportByPassword). -/
def findByPasswordKey (store : List Report) (candidate : String) : Option Report :=
  store.find? (fun r => r.passwordKey == sha256Hex candidate)

/-- controllers/reporterController.js getReportByPassword: digest lookup,
then a single bcrypt comparison against the one candidate record. -/
def getReportByPassword (store : List Report) (password : Option String) :
    RestResult PublicData :=
  if !(truthy password) then .reject 400 "Password is required."
  else
    match findByPasswordKey store (password.getD "") with
    | none => .reject 404 "No report found for this password."
    | some report =>
      if bcryptCompare (password.getD "") report.password then
        .ok 200 "Report retrieved successfully." (getPublicData report none)
      else .reject 401 "Invalid password."

/-- The two-step verification procedure as §4.3 of the spec states it:
digest lookup narrowing to at most one candidate, then one slow-hash
comparison against it.  Declared to compare the controllers against the
spec's rule. -/
def twoStepVerify (store : List Report) (candidate : String) : Option Report :=
  match findByPasswordKey store candidate with
  | none => none
  | some r => if bcryptCompare candidate r.password then some r else none

/-- A report document loaded from the database (or just mutated in
memory), together with Mongoose's modified-path state for the one path
the pre-save hooks inspect, `status`. -/
structure LoadedDoc where
  report : Report
  statusModified : Bool
deriving DecidableEq, Repr

/-- Assignment `report.status = s` on a loaded document: Mongoose marks
the path modified exactly when the assigned value differs from the
current one (and a mark, once set, persists). -/
def setStatus (doc : LoadedDoc) (s : String) : LoadedDoc :=
  { report := { doc.report with status := s },
    statusModified := doc.statusModified || (s != doc.report.status) }

/-- `report.save()` on an already-persisted document: schema validation
(the status enum) runs first; then the history pre-save hook appends one
`{status, updatedAt}` entry exactly when the status path is modified.
(The caseID and password hooks skip loaded documents: `this.caseID` is
set and `this.isNew` is false.)  Returns the final document as written. -/
def runSave (doc : LoadedDoc) (now : Nat) : Except String Report :=
  if !(validStatus doc.report.status) then
    .error "Report validation failed: status is not a valid enum value."
  else
    .ok (if doc.statusModified then
          { doc.report with
            history := doc.report.history ++ [⟨doc.report.status, now⟩] }
         else doc.report)

/-- Writing a saved document back: the record with the same `_id` is
replaced. -/
def putReport (store : List Report) (r : Report) : List Report :=
  store.map (fun x => if x.id == r.id then r else x)

/-- The payload of addWhistleblowerMessage's success response. -/
structure WbData where
  comments : List Comment
  evidenceFiles : List EvidenceFile
deriving DecidableEq, Repr

/-- `mimetype.split("/")[0]`. -/
def mimePrimary (m : String) : String := (m.splitOn "/").headD ""

/-- controllers/reporterController.js addWhistleblowerMessage: loads all
reports (`Report.find().select("+password")`) and bcrypt-compares the
candidate against each in turn, taking the first match; on a match it
appends uploaded evidence and one reporter comment and saves. -/
def addWhistleblowerMessage (store : List Report) (password message : Option String)
    (files : List UploadedFile) (now : Nat) : RestResult WbData × List Report :=
  if !(truthy password) || !(truthy message) then
    (.reject 400 "Password and message are required.", store)
  else
    match store.find? (fun r => bcryptCompare (password.getD "") r.password) with
    | none => (.reject 401 "Invalid password. Report not found.", store)
    | some r =>
      let ev := files.map (fun f =>
        { filePath := f.location, fileType := mimePrimary f.mimetype,
          fileName := f.originalname, uploadedAt := now })
      let updated : Report :=
        { r with
          evidenceFiles := r.evidenceFiles ++ ev,
          comments := r.comments ++
            [{ user := none, role := "reporter", message := message.getD "",
               createdAt := now }] }
      match runSave ⟨updated, false⟩ now with
      | .error e => (.reject 500 e, store)
      | .ok fr =>
        (.ok 201 "Message added successfully." ⟨fr.comments, fr.evidenceFiles⟩,
         putReport store fr)

/-- controllers/adminController.js updateReportStatus: validates the
status against the allowed list, applies the isResolved flag logic
(resolved sets it, closed leaves it, pending / under review clear it),
sets the status and saves.  (The ObjectId-format precheck is elided:
ids are already abstract here.) -/
def updateReportStatus (store : List Report) (id : ObjectId) (status : Option String)
    (now : Nat) : RestResult Report × List Report :=
  let s := status.getD ""
  if !(validStatus s) then
    (.reject 400 "Invalid status. Allowed values: pending, under review, resolved, closed",
     store)
  else
    match store.find? (fun r => r.id == id) with
    | none => (.reject 404 "Report not found.", store)
    | some r =>
      let r1 := if s == "resolved" then { r with isResolved := true }
                else if s == "closed" then r
                else { r with isResolved := false }
      match runSave (setStatus ⟨r1, false⟩ s) now with
      | .error e => (.reject 500 e, store)
      | .ok fr =>
        (.ok 200 "Report status updated successfully." fr, putReport store fr)

/-- controllers/adminController.js updateAgencyReportStatus: requires a
truthy status, authorizes by comparing the report's `agencyAssigned`
reference with the calling user's own id, then sets the status and saves
- with no allowed-status precheck and no isResolved flag logic. -/
def updateAgencyReportStatus (store : List Report) (callerId : ObjectId)
    (reportId : ObjectId) (status : Option String) (now : Nat) :
    RestResult Report × List Report :=
  if !(truthy status) then (.reject 400 "Status is required", store)
  else
    match store.find? (fun r => r.id == reportId) with
    | none => (.reject 404 "Report not found", store)
    | some r =>
      match r.agencyAssigned with
      | none => (.reject 403 "You are not authorized to update this report", store)
      | some aid =>
        if aid != callerId then
          (.reject 403 "You are not authorized to update this report", store)
        else
          match runSave (setStatus ⟨r, false⟩ (status.getD "")) now with
          | .error e => (.reject 500 e, store)
          | .ok fr =>
            (.ok 200 "Status updated successfully" fr, putReport store fr)

/-- controllers/adminController.js assignReportToAgency: looks up the
report and the agency, points the report's `agencyAssigned` at the
agency's id and saves. -/
def assignReportToAgency (store : Store) (reportId agencyId : ObjectId)
    (now : Nat) : RestResult Report × Store :=
  match store.reports.find? (fun r => r.id == reportId) with
  | none => (.reject 404 "Report not found", store)
  | some r =>
    match store.agencies.find? (fun a => a.id == agencyId) with
    | none => (.reject 404 "Agency not found", store)
    | some ag =>
      match runSave ⟨{ r with agencyAssigned := some ag.id }, false⟩ now with
      | .error e => (.reject 500 e, store)
      | .ok fr =>
        (.ok 200 "Agency assigned successfully" fr,
         { store with reports := putReport store.reports fr })

/-- The nondeterministic inputs of one report creation: the entropy drawn
by the pre-save hooks and the ambient clock / id generator. -/
structure CreationEnv where
  plainPassword : String
  salt : Nat
  now : Nat
  newId : ObjectId
  year : Nat
  randomSuffix : Nat
deriving DecidableEq, Repr

/-- `(count + 1).toString().padStart(5, "0")`. -/
def padStart5 (n : Nat) : String :=
  let s := toString n
  String.mk (List.replicate (5 - s.length) '0') ++ s

/-- The caseID pre-save hook: counts existing reports whose caseID starts
with `LAG-<year>` and formats `LAG-<year>-<count+1 padded>-<suffix>`. -/
def genCaseID (reports : List Report) (env : CreationEnv) : String :=
  let pre := "LAG-" ++ toString env.year
  let count := reports.countP (fun r => r.caseID.take pre.length == pre)
  pre ++ "-" ++ padStart5 (count + 1) ++ "-" ++ toString env.randomSuffix

/-- The request body of POST /api/reports. -/
structure CreateReportRequest where
  title : Option String
  description : Option String
  location : Option String
  reporterType : Option String
  reporterName : Option String
  reporterEmail : Option String
  reporterPhone : Option String
deriving DecidableEq, Repr

/-- The creation response: on success it carries the public projection
(`data`) and the one-time `casePassword`. -/
structure CreateResponse where
  code : Nat
  success : Bool
  message : String
  data : Option PublicData
  casePassword : Option String
deriving DecidableEq, Repr

/-- controllers/reporterController.js createReport, combined with the
three pre-save hooks of reportSchema that fire on a new document:
validation of the body, sentinel category/agency lookup, caseID
generation, secret generation (SHA-256 lookup digest + bcrypt hash of a
fresh plaintext), and the history hook - which records nothing because
the defaulted initial status is not a modified path. -/
def createReport (store : Store) (req : CreateReportRequest)
    (files : List UploadedFile) (env : CreationEnv) : CreateResponse × Store :=
  if !(truthy req.title) || !(truthy req.description) then
    ({ code := 400, success := false,
       message := "Title and description are required fields.",
       data := none, casePassword := none }, store)
  else if !(req.reporterType == some "anonymous"
            || req.reporterType == some "confidential") then
    ({ code := 400, success := false,
       message := "Invalid reporter type. Must be \x27anonymous\x27 or \x27confidential\x27.",
       data := none, casePassword := none }, store)
  else if req.reporterType == some "anonymous"
          && (truthy req.reporterName || truthy req.reporterEmail
              || truthy req.reporterPhone) then
    ({ code := 400, success := false,
       message := "Anonymous reports cannot include name, email, or phone information.",
       data := none, casePassword := none }, store)
  else if req.reporterType == some "confidential"
          && (!(truthy req.reporterName) || !(truthy req.reporterEmail)) then
    ({ code := 400, success := false,
       message := "Confidential reports must include reporter name and email address.",
       data := none, casePassword := none }, store)
  else
    let defaultCategory := store.categories.find? (fun c => c.name == "uncategorised")
    let defaultAgency := store.agencies.find? (fun a => a.name == "unassigned")
    let ev := files.map (fun f =>
      { filePath := f.location, fileType := f.mimetype,
        fileName := f.originalname, uploadedAt := env.now })
    let persisted : Report :=
      { id := env.newId,
        caseID := genCaseID store.reports env,
        reporterType := (req.reporterType).getD "",
        reporterName := req.reporterName,
        reporterEmail := req.reporterEmail,
        reporterPhone := req.reporterPhone,
        title := req.title.getD "",
        description := req.description.getD "",
        location := req.location,
        status := "pending",
        agencyAssigned := defaultAgency.map (fun a => a.id),
        password := bcryptHash env.plainPassword env.salt,
        passwordKey := sha256Hex env.plainPassword,
        category := defaultCategory.map (fun c => c.id),
        isResolved := false,
        internalNotes := none,
        evidenceFiles := ev,
        comments := [],
        history := [] }
    ({ code := 201, success := true,
       message := "Report submitted successfully",
       data := some (getPublicData persisted (some env.plainPassword)),
       casePassword := some env.plainPassword },
     { store with reports := store.reports ++ [persisted] })

/-- config/seedDefaults.js: ensures the sentinel "uncategorised" category
and "unassigned" agency exist, creating them (with the given fresh ids)
when absent. -/
def seedDefaults (store : Store) (catId agId : ObjectId) : Store :=
  let store1 :=
    if store.categories.any (fun c => c.name == "uncategorised") then store
    else { store with categories := store.categories ++ [⟨catId, "uncategorised"⟩] }
  if store1.agencies.any (fun a => a.name == "unassigned") then store1
  else { store1 with agencies := store1.agencies ++ [⟨agId, "unassigned"⟩] }

/-- Well-formedness of a report store, as creation establishes it: every
record's lookup digest is the SHA-256 of the same plaintext its bcrypt
credential hash was derived from, the issued plaintext is non-empty (the
generator emits 6 hex characters), the status is a legal enum value, and
- per the unique indexes on `passwordKey` and `_id` - digests and ids are
pairwise distinct. -/
def wfStore (store : List Report) : Prop :=
  (∀ r ∈ store,
      r.passwordKey = sha256Hex (plainOf r) ∧ plainOf r ≠ "" ∧
      validStatus r.status = true) ∧
  List.Pairwise (fun a b => a.passwordKey ≠ b.passwordKey ∧ a.id ≠ b.id) store

/-! Concrete fixtures used to evaluate the embedded operations on
explicit inputs. -/

def emptyStore : Store := ⟨[], [], []⟩

def wEnv : CreationEnv :=
  { plainPassword := "A1B2C3", salt := 10, now := 0, newId := 5,
    year := 2025, randomSuffix := 123 }

/-- The creation scenario of spec §8. -/
def anonReq : CreateReportRequest :=
  { title := some "Broken streetlight", description := some "vandalized",
    location := none, reporterType := some "anonymous",
    reporterName := none, reporterEmail := none, reporterPhone := none }

/-- An anonymous submission carrying an explicit empty-string
reporterName. -/
def emptyNameReq : CreateReportRequest :=
  { anonReq with reporterName := some "" }

/-- A well-formed stored report whose secret is "A1B2C3". -/
def wReport : Report :=
  { id := 1, caseID := "LAG-2025-00001-123", reporterType := "anonymous",
    reporterName := none, reporterEmail := none, reporterPhone := none,
    title := "Broken streetlight", description := "vandalized",
    location := none, status := "pending", agencyAssigned := none,
    password := bcryptHash "A1B2C3" 10, passwordKey := sha256Hex "A1B2C3",
    category := none, isResolved := false, internalNotes := none,
    evidenceFiles := [], comments := [], history := [] }

/-- A stored report whose lookup digest and credential hash disagree
(digest of "B", bcrypt hash of "A"), exhibiting the branch where the
digest lookup and the bcrypt comparison give different answers. -/
def mismatchReport : Report :=
  { wReport with id := 2, password := bcryptHash "A" 10,
                 passwordKey := sha256Hex "B" }

/-- A well-formed report assigned (as assignReportToAgency does) to the
agency with id 7. -/
def agencyReport : Report :=
  { wReport with id := 3, agencyAssigned := some 7 }

/-- An anonymous submission carrying a non-empty reporterName. -/
def namedAnonReq : CreateReportRequest :=
  { anonReq with reporterName := some "Alice" }

/-- The report persisted by `createReport emptyStore anonReq [] wEnv`. -/
def createdAnon : Report := { wReport with id := 5 }

/-- The report persisted by creating `anonReq` on the seeded empty store
(sentinel category id 100, sentinel agency id 101). -/
def createdSeeded : Report :=
  { wReport with id := 5, category := some 100, agencyAssigned := some 101 }

/-- `agencyReport` as saved by the admin status path for "resolved". -/
def resolvedAgencyReport : Report :=
  { agencyReport with
    status := "resolved", isResolved := true,
    history := [⟨"resolved", 4⟩] }

/-- `agencyReport` as saved by the agency status path for "resolved":
the flag is left alone. -/
def agencyPathSaved : Report :=
  { agencyReport with status := "resolved", history := [⟨"resolved", 4⟩] }

/-- `wReport` saved with a modified status path at time 9. -/
def savedWithChange : Report :=
  { wReport with history := [⟨"pending", 9⟩] }

/-- A store holding `wReport` and an agency with id 7. -/
def wStore10 : Store := ⟨[wReport], [], [⟨7, "Env"⟩]⟩

/-- `wReport` after assignReportToAgency points it at agency 7. -/
def assignedW : Report := { wReport with agencyAssigned := some 7 }

/-- `assignedW` as saved by the agency status path for "resolved". -/
def savedAgencyW : Report :=
  { assignedW with status := "resolved", history := [⟨"resolved", 1⟩] }

instance (l : List Report) : Decidable (wfStore l) := by
  unfold wfStore; infer_instance

/-! Helper lemmas about lookups in well-formed stores. -/

theorem truthy_false {o : Option String} (h : truthy o = false) :
    o = none ∨ o = some "" := by
  cases o with
  | none => exact Or.inl rfl
  | some s =>
    refine Or.inr ?_
    simp [truthy] at h
    simp [h]

theorem find_of_unique {α : Type} (p : α → Bool) (l : List α) (r : α)
    (hr : r ∈ l) (hpr : p r = true) (huniq : ∀ b ∈ l, p b = true → b = r) :
    l.find? p = some r := by
  induction l with
  | nil => simp at hr
  | cons x xs ih =>
    by_cases hx : p x = true
    · have hxr : x = r := huniq x (List.mem_cons_self x xs) hx
      rw [List.find?_cons_of_pos _ hx, hxr]
    · have hxr : r ≠ x := fun e => hx (e ▸ hpr)
      have hr' : r ∈ xs := by
        rcases List.mem_cons.mp hr with h | h
        · exact absurd h hxr
        · exact h
      rw [List.find?_cons_of_neg _ hx]
      exact ih hr' (fun b hb hpb => huniq b (List.mem_cons_of_mem x hb) hpb)

theorem find_append_of_none {α : Type} (p : α → Bool) (l₁ l₂ : List α)
    (h : l₁.find? p = none) : (l₁ ++ l₂).find? p = l₂.find? p := by
  induction l₁ with
  | nil => simp
  | cons x xs ih =>
    have hx : ¬(p x = true) := by
      intro hx
      simp [List.find?_cons_of_pos _ hx] at h
    rw [List.find?_cons_of_neg _ hx] at h
    rw [List.cons_append, List.find?_cons_of_neg _ hx]
    exact ih h

theorem pairwise_distinct_aux {store : List Report}
    (h : List.Pairwise (fun a b => a.passwordKey ≠ b.passwordKey ∧ a.id ≠ b.id) store) :
    ∀ a ∈ store, ∀ b ∈ store,
      (a.passwordKey = b.passwordKey → a = b) ∧ (a.id = b.id → a = b) := by
  induction store with
  | nil => simp
  | cons x xs ih =>
    have hx := List.pairwise_cons.mp h
    intro a ha b hb
    rcases List.mem_cons.mp ha with rfl | ha'
    · rcases List.mem_cons.mp hb with rfl | hb'
      · exact ⟨fun _ => rfl, fun _ => rfl⟩
      · exact ⟨fun e => absurd e (hx.1 b hb').1, fun e => absurd e (hx.1 b hb').2⟩
    · rcases List.mem_cons.mp hb with rfl | hb'
      · exact ⟨fun e => absurd e.symm (hx.1 a ha').1, fun e => absurd e.symm (hx.1 a ha').2⟩
      · exact ih hx.2 a ha' b hb'

theorem wf_digest_eq {store : List Report} (h : wfStore store) {a b : Report}
    (ha : a ∈ store) (hb : b ∈ store) (he : a.passwordKey = b.passwordKey) :
    a = b :=
  (pairwise_distinct_aux h.2 a ha b hb).1 he

theorem wf_id_eq {store : List Report} (h : wfStore store) {a b : Report}
    (ha : a ∈ store) (hb : b ∈ store) (he : a.id = b.id) : a = b :=
  (pairwise_distinct_aux h.2 a ha b hb).2 he

/-- In a well-formed store, the digest lookup with a report's own secret
finds exactly that report. -/
theorem wf_find_digest {store : List Report} (h : wfStore store) {r : Report}
    (hr : r ∈ store) : findByPasswordKey store (plainOf r) = some r := by
  unfold findByPasswordKey
  apply find_of_unique _ _ _ hr
  · have hk := (h.1 r hr).1
    simp [hk]
  · intro b hb hpb
    have hbk : b.passwordKey = sha256Hex (plainOf r) := by simpa using hpb
    have hrk : r.passwordKey = sha256Hex (plainOf r) := (h.1 r hr).1
    exact wf_digest_eq h hb hr (hbk.trans hrk.symm)

/-- In a well-formed store, a candidate that is no report's secret has no
digest match. -/
theorem wf_find_digest_none {store : List Report} (h : wfStore store) {c : String}
    (hc : ∀ r ∈ store, c ≠ plainOf r) : findByPasswordKey store c = none := by
  unfold findByPasswordKey
  rw [List.find?_eq_none]
  intro x hx hpx
  have hxk : x.passwordKey = sha256Hex c := by simpa using hpx
  rw [(h.1 x hx).1] at hxk
  have hpc : plainOf x = c := by simpa [sha256Hex] using hxk
  exact hc x hx hpc.symm

/-- In a well-formed store, the bcrypt scan with a report's own secret
finds exactly that report. -/
theorem wf_find_scan {store : List Report} (h : wfStore store) {r : Report}
    (hr : r ∈ store) :
    store.find? (fun x => bcryptCompare (plainOf r) x.password) = some r := by
  apply find_of_unique _ _ _ hr
  · simp [bcryptCompare, plainOf]
  · intro b hb hpb
    have hpre : r.password.preimage = b.password.preimage := by
      simpa [bcryptCompare, plainOf] using hpb
    have hbk := (h.1 b hb).1
    have hrk := (h.1 r hr).1
    apply wf_digest_eq h hb hr
    rw [hbk, hrk]
    simp [sha256Hex, plainOf, hpre]

/-- In a well-formed store, the bcrypt scan with a candidate that is no
report's secret finds nothing. -/
theorem wf_find_scan_none {store : List Report} {c : String}
    (hc : ∀ r ∈ store, c ≠ plainOf r) :
    store.find? (fun x => bcryptCompare c x.password) = none := by
  rw [List.find?_eq_none]
  intro x hx hpx
  exact hc x hx (by simpa [bcryptCompare, plainOf] using hpx)

/-- Saving a report that was found by id leaves it findable: the stored
record with that id is now the saved document. -/
theorem find_putReport {l : List Report} {i : ObjectId} {r : Report} (fr : Report)
    (h : l.find? (fun x => x.id == i) = some r) (hid : fr.id = r.id) :
    (putReport l fr).find? (fun x => x.id == i) = some fr := by
  have hri : r.id = i := by simpa using List.find?_some h
  induction l with
  | nil => simp [List.find?] at h
  | cons x xs ih =>
    by_cases hx : (x.id == i) = true
    · simp only [List.find?, hx] at h
      have hxr : x = r := Option.some.inj h
      have hxid : (x.id == fr.id) = true := by simp [hxr, hid]
      have hfi : (fr.id == i) = true := by simp [hid, hri]
      simp only [putReport, List.map_cons, hxid, if_pos, List.find?, hfi]
    · have hx' : (x.id == i) = false := by
        cases he : (x.id == i) with
        | true => exact absurd he hx
        | false => rfl
      simp only [List.find?, hx'] at h
      have hxid : ¬(x.id == fr.id) = true := by
        intro he
        apply hx
        have h1 : x.id = fr.id := by simpa using he
        simp [h1, hid, hri]
      simp only [putReport, List.map_cons, if_neg hxid, List.find?, hx']
      exact ih h

/-! Claim theorems. -/

/-- Claim C1: for every report in a well-formed store, getReportByPassword
called with the plaintext secret issued at creation succeeds (the SHA-256
digest of the secret equals the stored passwordKey, so the lookup finds
the report, and the bcrypt comparison succeeds) and returns that report's
public projection; and for every candidate secret that was issued to no
report, the call is rejected. -/
theorem C1_roundtrip (store : List Report) (hwf : wfStore store) :
    (∀ r ∈ store,
      getReportByPassword store (some (plainOf r)) =
        .ok 200 "Report retrieved successfully." (getPublicData r none)) ∧
    (∀ c : String, (∀ r ∈ store, c ≠ plainOf r) →
      (getReportByPassword store (some c)).isReject = true) := by
  constructor
  · intro r hr
    have hne : plainOf r ≠ "" := ((hwf.1 r hr).2).1
    have hfind := wf_find_digest hwf hr
    simp only [plainOf] at hne hfind
    simp [getReportByPassword, truthy, hne, hfind, bcryptCompare, plainOf]
  · intro c hc
    by_cases hce : c = ""
    · subst hce
      simp [getReportByPassword, truthy, RestResult.isReject, RestResult.isOk]
    · have hfind := wf_find_digest_none hwf hc
      simp [getReportByPassword, truthy, hce, hfind, RestResult.isReject,
            RestResult.isOk]

/-- Witness for C1 at a concrete one-report store: the issued secret
"A1B2C3" retrieves the report, a never-issued candidate is rejected. -/
theorem C1_roundtrip_witness :
    getReportByPassword [wReport] (some "A1B2C3") =
      .ok 200 "Report retrieved successfully." (getPublicData wReport none) ∧
    (getReportByPassword [wReport] (some "ZZZZZZ")).isReject = true := by
  have h := C1_roundtrip [wReport] (by decide)
  exact ⟨h.1 wReport (by decide), h.2 "ZZZZZZ" (by decide)⟩

/-- Claim C2 is false on the code: the two failure cases of
getReportByPassword are distinguishable.  On a store whose one record has
digest of "B" but credential hash of "A", candidate "B" reaches the
bcrypt-mismatch branch and gets 401 "Invalid password.", while candidate
"C" has no digest match and gets 404 "No report found for this
password." - different status codes and different messages. -/
theorem C2_counterexample :
    getReportByPassword [mismatchReport] (some "B") =
      .reject 401 "Invalid password." ∧
    getReportByPassword [mismatchReport] (some "C") =
      .reject 404 "No report found for this password." ∧
    ¬((401 : Nat) = 404 ∧
      ("Invalid password." : String) = "No report found for this password.") := by
  decide

/-- Claim C2 amended: the two failure cases of getReportByPassword
produce distinct user-facing rejections - 404 "No report found for this
password." when no stored digest matches the candidate's digest, and 401
"Invalid password." when a digest match fails the bcrypt comparison - so
the response reveals which of the two checks failed. -/
theorem C2_amended (store : List Report) (c : String) (hc : c ≠ "") :
    (findByPasswordKey store c = none →
      getReportByPassword store (some c) =
        .reject 404 "No report found for this password.") ∧
    (∀ r : Report, findByPasswordKey store c = some r →
      bcryptCompare c r.password = false →
      getReportByPassword store (some c) = .reject 401 "Invalid password.") := by
  constructor
  · intro h
    simp [getReportByPassword, truthy, hc, h]
  · intro r h hb
    simp only [bcryptCompare] at hb
    simp [getReportByPassword, truthy, hc, h, bcryptCompare, hb]

/-- Witness for the amended C2 at the concrete mismatch store. -/
theorem C2_amended_witness :
    getReportByPassword [mismatchReport] (some "C") =
      .reject 404 "No report found for this password." ∧
    getReportByPassword [mismatchReport] (some "B") =
      .reject 401 "Invalid password." := by
  refine ⟨(C2_amended [mismatchReport] "C" (by decide)).1 (by decide),
          (C2_amended [mismatchReport] "B" (by decide)).2 mismatchReport
            (by decide) (by decide)⟩

/-- Claim C3 is false on the code: addWhistleblowerMessage does not
verify by digest lookup plus a single comparison - it scans.  On the
mismatch store, the candidate "A" has no digest match at all (the
two-step verifier rejects it), yet addWhistleblowerMessage succeeds and
appends a comment, which is only possible by bcrypt-comparing against
records the digest lookup never returned. -/
theorem C3_counterexample :
    twoStepVerify [mismatchReport] "A" = none ∧
    ((addWhistleblowerMessage [mismatchReport] (some "A") (some "hello") [] 7).fst).isOk
      = true ∧
    ((addWhistleblowerMessage [mismatchReport] (some "A") (some "hello") [] 7).snd.map
      (fun r => r.comments.length)) = [1] := by
  decide

/-- Claim C3 amended: getReportByPassword does follow the two-step rule -
its outcome is exactly that of the spec's two-step verifier - but
addWhistleblowerMessage resolves the candidate by loading all reports and
bcrypt-comparing against each in turn: its outcome is governed solely by
the first bcrypt match over the whole store, with no digest lookup. -/
theorem C3_amended (store : List Report) (c m : String) (hc : c ≠ "")
    (hm : m ≠ "") (t : Nat) :
    (twoStepVerify store c = none →
      (getReportByPassword store (some c)).isReject = true) ∧
    (∀ r : Report, twoStepVerify store c = some r →
      getReportByPassword store (some c) =
        .ok 200 "Report retrieved successfully." (getPublicData r none)) ∧
    (store.find? (fun x => bcryptCompare c x.password) = none →
      addWhistleblowerMessage store (some c) (some m) [] t =
        (.reject 401 "Invalid password. Report not found.", store)) ∧
    (∀ r : Report, store.find? (fun x => bcryptCompare c x.password) = some r →
      validStatus r.status = true →
      ((addWhistleblowerMessage store (some c) (some m) [] t).fst).isOk = true) := by
  refine ⟨?_, ?_, ?_, ?_⟩
  · intro h
    cases hfind : findByPasswordKey store c with
    | none =>
      simp [getReportByPassword, truthy, hc, hfind, RestResult.isReject,
            RestResult.isOk]
    | some r =>
      simp only [twoStepVerify, hfind] at h
      by_cases hb : bcryptCompare c r.password = true
      · simp [hb] at h
      · have hb' : bcryptCompare c r.password = false := by
          cases hbe : bcryptCompare c r.password with
          | true => exact absurd hbe hb
          | false => rfl
        simp only [bcryptCompare] at hb'
        simp [getReportByPassword, truthy, hc, hfind, bcryptCompare, hb',
              RestResult.isReject, RestResult.isOk]
  · intro r h
    cases hfind : findByPasswordKey store c with
    | none => simp [twoStepVerify, hfind] at h
    | some r' =>
      simp only [twoStepVerify, hfind] at h
      by_cases hb : bcryptCompare c r'.password = true
      · simp only [hb, if_pos] at h
        have hrr : r' = r := Option.some.inj h
        subst hrr
        simp only [bcryptCompare] at hb
        simp [getReportByPassword, truthy, hc, hfind, bcryptCompare, hb]
      · simp [hb] at h
  · intro h
    simp [addWhistleblowerMessage, truthy, hc, hm, h]
  · intro r h hv
    simp [addWhistleblowerMessage, truthy, hc, hm, h, runSave, hv,
          RestResult.isOk]

/-- Witness for the amended C3 at the mismatch store: the two-step
verifier rejects "A" (so the follow-up read rejects it too), while the
scanning message endpoint accepts it. -/
theorem C3_amended_witness :
    (getReportByPassword [mismatchReport] (some "A")).isReject = true ∧
    ((addWhistleblowerMessage [mismatchReport] (some "A") (some "hello") [] 7).fst).isOk
      = true := by
  have h := C3_amended [mismatchReport] "A" "hello" (by decide) (by decide) 7
  exact ⟨h.1 (by decide), h.2.2.2 mismatchReport (by decide) (by decide)⟩

/-- Claim C4 is false as stated: the creation check uses JavaScript
truthiness, so an anonymous submission whose reporterName is the empty
string is not rejected - it is accepted (201), the report persists
`reporterName = ""`, and the creation response's public projection
contains that reporterName field. -/
theorem C4_counterexample :
    (createReport emptyStore emptyNameReq [] wEnv).fst.code = 201 ∧
    ((createReport emptyStore emptyNameReq [] wEnv).snd.reports.map
      (fun r => r.reporterName)) = [some ""] ∧
    ((createReport emptyStore emptyNameReq [] wEnv).fst.data.map
      (fun d => d.reporterName)) = some (some "") := by
  decide

/-- Claim C4 amended: creation rejects anonymous submissions that include
any of reporterName/Email/Phone with a non-empty value (leaving the store
unchanged); any accepted anonymous creation persists each of the three
identity fields as absent or the empty string; the JSON projection of an
anonymous report (admin/agency reads) strips all three fields outright;
and the password-gated projection returns exactly the persisted
(absent-or-empty) values. -/
theorem C4_amended (store : Store) (req : CreateReportRequest)
    (files : List UploadedFile) (env : CreationEnv) :
    (req.reporterType = some "anonymous" →
      (truthy req.reporterName || truthy req.reporterEmail
        || truthy req.reporterPhone) = true →
      (createReport store req files env).fst.code = 400 ∧
      (createReport store req files env).snd = store) ∧
    (req.reporterType = some "anonymous" →
      (createReport store req files env).fst.code = 201 →
      ∀ r ∈ (createReport store req files env).snd.reports,
        r ∉ store.reports →
        (r.reporterName = none ∨ r.reporterName = some "") ∧
        (r.reporterEmail = none ∨ r.reporterEmail = some "") ∧
        (r.reporterPhone = none ∨ r.reporterPhone = some "")) ∧
    (∀ r : Report, r.reporterType = "anonymous" →
      (toJSON r).reporterName = none ∧ (toJSON r).reporterEmail = none ∧
      (toJSON r).reporterPhone = none) ∧
    (∀ r : Report,
      (getPublicData r none).reporterName = r.reporterName ∧
      (getPublicData r none).reporterEmail = r.reporterEmail ∧
      (getPublicData r none).reporterPhone = r.reporterPhone) := by
  refine ⟨?_, ?_, ?_, ?_⟩
  · intro hrt htr
    simp only [createReport]
    split
    · exact ⟨rfl, rfl⟩
    · split
      · exact ⟨rfl, rfl⟩
      · split
        · exact ⟨rfl, rfl⟩
        · rename_i hcond
          rw [hrt] at hcond
          simp [htr] at hcond
  · intro hrt h201 r hmem hnot
    revert h201 hmem
    simp only [createReport]
    split
    · intro h201
      simp at h201
    · split
      · intro h201
        simp at h201
      · split
        · intro h201
          simp at h201
        · split
          · intro h201
            simp at h201
          · rename_i hcond3 _
            intro _ hmem
            rw [hrt] at hcond3
            simp only [beq_self_eq_true, Bool.true_and, Bool.not_eq_true,
                       Bool.or_eq_false_iff] at hcond3
            simp only [List.mem_append, List.mem_singleton] at hmem
            rcases hmem with hmem | hmem
            · exact absurd hmem hnot
            · subst hmem
              exact ⟨truthy_false hcond3.1.1, truthy_false hcond3.1.2,
                     truthy_false hcond3.2⟩
  · intro r h
    simp [toJSON, h]
  · intro r
    exact ⟨rfl, rfl, rfl⟩

/-- Witness for the amended C4: a non-empty reporterName on an anonymous
submission is rejected with 400 and no store change, and the JSON
projection of an anonymous report carries no identity fields. -/
theorem C4_amended_witness :
    (createReport emptyStore namedAnonReq [] wEnv).fst.code = 400 ∧
    (createReport emptyStore namedAnonReq [] wEnv).snd = emptyStore ∧
    (toJSON wReport).reporterName = none := by
  have h := C4_amended emptyStore namedAnonReq [] wEnv
  exact ⟨(h.1 (by decide) (by decide)).1, (h.1 (by decide) (by decide)).2,
         (h.2.2.1 wReport (by decide)).1⟩

/-- Claim C5: the plaintext case secret appears exactly once, in the
creation response (as `casePassword` and as the projection's
`generatedPassword`); the persisted record stores only the SHA-256
lookup digest and the bcrypt hash; the password-gated follow-up read
never carries a generatedPassword; and the JSON projection used by all
other reads carries neither credential field. -/
theorem C5_one_time (store : Store) (req : CreateReportRequest)
    (files : List UploadedFile) (env : CreationEnv)
    (hplain : env.plainPassword ≠ "")
    (h201 : (createReport store req files env).fst.code = 201) :
    ((createReport store req files env).fst.casePassword = some env.plainPassword ∧
     (createReport store req files env).fst.data.map (fun d => d.generatedPassword) =
       some (some env.plainPassword)) ∧
    (∃ p : Report,
       (createReport store req files env).snd.reports = store.reports ++ [p] ∧
       p.passwordKey = sha256Hex env.plainPassword ∧
       p.password = bcryptHash env.plainPassword env.salt) ∧
    (∀ (st : List Report) (c : Option String) (code : Nat) (msg : String)
       (pd : PublicData),
       getReportByPassword st c = .ok code msg pd → pd.generatedPassword = none) ∧
    (∀ r : Report, (toJSON r).password = none ∧ (toJSON r).passwordKey = none) := by
  refine ⟨?_, ?_, ?_, ?_⟩
  · revert h201
    simp only [createReport]
    split
    · intro h201; simp at h201
    · split
      · intro h201; simp at h201
      · split
        · intro h201; simp at h201
        · split
          · intro h201; simp at h201
          · intro _
            exact ⟨rfl, by simp [getPublicData, truthy, hplain]⟩
  · revert h201
    simp only [createReport]
    split
    · intro h201; simp at h201
    · split
      · intro h201; simp at h201
      · split
        · intro h201; simp at h201
        · split
          · intro h201; simp at h201
          · intro _
            exact ⟨_, rfl, rfl, rfl⟩
  · intro st c code msg pd h
    simp only [getReportByPassword] at h
    split at h
    · simp at h
    · split at h
      · simp at h
      · split at h
        · rw [RestResult.ok.injEq] at h
          rcases h with ⟨-, -, hpd⟩
          subst hpd
          simp [getPublicData, truthy]
        · simp at h
  · intro r
    exact ⟨rfl, rfl⟩

/-- Witness for C5 at a concrete creation. -/
theorem C5_one_time_witness :
    (createReport emptyStore anonReq [] wEnv).fst.casePassword = some "A1B2C3" ∧
    (createReport emptyStore anonReq [] wEnv).fst.data.map
      (fun d => d.generatedPassword) = some (some "A1B2C3") ∧
    (toJSON wReport).password = none := by
  have h := C5_one_time emptyStore anonReq [] wEnv (by decide) (by decide)
  exact ⟨h.1.1, h.1.2, (h.2.2.2 wReport).1⟩

/-- Claim C6 is false on the code: updateAgencyReportStatus is a
status-transition operation, and transitioning a report to "resolved"
through it leaves `isResolved = false`. -/
theorem C6_counterexample :
    (updateAgencyReportStatus [agencyReport] 7 3 (some "resolved") 4).snd.map
      (fun r => (r.status, r.isResolved)) = [("resolved", false)] := by
  decide

/-- Claim C6 amended: the admin path updateReportStatus follows the flag
law (resolved sets isResolved, closed leaves it unchanged, pending /
under review clear it), but the agency path updateAgencyReportStatus
leaves isResolved unchanged for every transition, including to
"resolved". -/
theorem C6_amended (store : List Report) (id : ObjectId) (s : String)
    (now : Nat) (r : Report)
    (hr : store.find? (fun x => x.id == id) = some r)
    (hs : validStatus s = true) :
    (∀ (code : Nat) (msg : String) (fr : Report),
       (updateReportStatus store id (some s) now).fst = .ok code msg fr →
       fr.isResolved = (if s == "resolved" then true
                        else if s == "closed" then r.isResolved else false)) ∧
    (∀ (caller : ObjectId) (code : Nat) (msg : String) (fr : Report),
       (updateAgencyReportStatus store caller id (some s) now).fst =
         .ok code msg fr →
       fr.isResolved = r.isResolved) := by
  constructor
  · intro code msg fr h
    by_cases h1 : s = "resolved"
    · subst h1
      simp [updateReportStatus, hr, runSave, setStatus, validStatus] at h
      obtain ⟨-, -, hfr⟩ := h
      subst hfr
      split <;> simp
    · by_cases h2 : s = "closed"
      · subst h2
        simp [updateReportStatus, hr, runSave, setStatus, validStatus] at h
        obtain ⟨-, -, hfr⟩ := h
        subst hfr
        split <;> simp
      · simp [updateReportStatus, hs, hr, runSave, setStatus, h1, h2] at h
        obtain ⟨-, -, hfr⟩ := h
        subst hfr
        simp [h1, h2]
        split <;> simp
  · intro caller code msg fr h
    have hse : s ≠ "" := by
      intro e
      subst e
      simp [validStatus] at hs
    cases hag : r.agencyAssigned with
    | none =>
      simp [updateAgencyReportStatus, truthy, hse, hr, hag] at h
    | some aid =>
      by_cases hc : aid = caller
      · subst hc
        simp [updateAgencyReportStatus, truthy, hse, hr, hag, hs,
              runSave, setStatus] at h

        obtain ⟨-, -, hfr⟩ := h
        subst hfr
        split <;> simp
      · simp [updateAgencyReportStatus, truthy, hse, hr, hag, hc] at h

/-- Witness for the amended C6 at the concrete assigned report: the admin
path marks it resolved, the agency path saves the new status with the
flag untouched. -/
theorem C6_amended_witness :
    resolvedAgencyReport.isResolved = true ∧
    agencyPathSaved.isResolved = agencyReport.isResolved := by
  have h := C6_amended [agencyReport] 3 "resolved" 4 agencyReport
    (by decide) (by decide)
  refine ⟨?_, h.2 7 200 "Status updated successfully" agencyPathSaved (by decide)⟩
  have h1 := h.1 200 "Report status updated successfully." resolvedAgencyReport
    (by decide)
  simpa using h1

/-- Claim C7 is false on the code: after the first save the status
history is empty, not of length 1 - Mongoose does not mark the defaulted
initial status as a modified path, so the history hook records nothing at
creation. -/
theorem C7_counterexample :
    (createReport emptyStore anonReq [] wEnv).fst.code = 201 ∧
    ((createReport emptyStore anonReq [] wEnv).snd.reports.map
      (fun r => r.history.length)) = [0] := by
  decide

/-- Claim C7 amended: a created report starts with an empty status
history (the defaulted initial "pending" records no entry); every save
whose status path is modified appends exactly one entry carrying the
saved status and timestamp, and every save whose status path is not
modified leaves the history unchanged; assigning a status marks the path
modified exactly when the value differs - so history length equals the
number of observed status changes since creation. -/
theorem C7_amended :
    (∀ (st : Store) (req : CreateReportRequest) (files : List UploadedFile)
       (env : CreationEnv),
       ∀ r ∈ (createReport st req files env).snd.reports, r ∉ st.reports →
         r.history = []) ∧
    (∀ (doc : LoadedDoc) (now : Nat) (fr : Report), runSave doc now = .ok fr →
       fr.history = (if doc.statusModified then
                       doc.report.history ++ [⟨doc.report.status, now⟩]
                     else doc.report.history)) ∧
    (∀ (r : Report) (s : String),
       (setStatus ⟨r, false⟩ s).statusModified = (s != r.status)) := by
  refine ⟨?_, ?_, ?_⟩
  · intro st req files env r hmem hnot
    revert hmem
    simp only [createReport]
    split
    · intro hmem; exact absurd hmem hnot
    · split
      · intro hmem; exact absurd hmem hnot
      · split
        · intro hmem; exact absurd hmem hnot
        · split
          · intro hmem; exact absurd hmem hnot
          · intro hmem
            simp only [List.mem_append, List.mem_singleton] at hmem
            rcases hmem with hmem | hmem
            · exact absurd hmem hnot
            · subst hmem; rfl
  · intro doc now fr h
    simp only [runSave] at h
    split at h
    · simp at h
    · rw [Except.ok.injEq] at h
      subst h
      by_cases hb : doc.statusModified = true
      · simp [hb]
      · simp [hb]
  · intro r s
    simp [setStatus]

/-- Witness for the amended C7: the concretely created report has empty
history, and a save with a modified status appends the one entry. -/
theorem C7_amended_witness :
    createdAnon.history = [] ∧
    savedWithChange.history = wReport.history ++ [⟨"pending", 9⟩] := by
  have h := C7_amended
  refine ⟨h.1 emptyStore anonReq [] wEnv createdAnon (by decide) (by decide), ?_⟩
  have h2 := h.2.1 ⟨wReport, true⟩ 9 savedWithChange (by rfl)
  simpa using h2

/-- Claim C8: with the correct secret of a stored report,
addWhistleblowerMessage appends exactly one reporter comment to that
report (evidence untouched when nothing is uploaded, all other reports
untouched) and returns the updated lists; with a secret belonging to no
report it rejects and leaves the store unchanged. -/
theorem C8_atomic (store : List Report) (hwf : wfStore store) (m : String)
    (hm : m ≠ "") (now : Nat) :
    (∀ r ∈ store,
       addWhistleblowerMessage store (some (plainOf r)) (some m) [] now =
         (.ok 201 "Message added successfully."
            ⟨r.comments ++ [⟨none, "reporter", m, now⟩], r.evidenceFiles⟩,
          store.map (fun x => if x.id == r.id then
              { x with comments := x.comments ++ [⟨none, "reporter", m, now⟩] }
            else x))) ∧
    (∀ c : String, (∀ r ∈ store, c ≠ plainOf r) →
       ((addWhistleblowerMessage store (some c) (some m) [] now).fst).isReject
         = true ∧
       (addWhistleblowerMessage store (some c) (some m) [] now).snd = store) := by
  constructor
  · intro r hr
    have hne : plainOf r ≠ "" := ((hwf.1 r hr).2).1
    have hvs : validStatus r.status = true := ((hwf.1 r hr).2).2
    have hfind := wf_find_scan hwf hr
    simp only [plainOf] at hne hfind
    simp [addWhistleblowerMessage, truthy, plainOf, hne, hm, hfind, runSave,
          hvs, putReport]
    intro x hx
    by_cases hxid : x.id = r.id
    · have hxr : x = r := wf_id_eq hwf hx hr hxid
      subst hxr
      simp
    · simp [hxid]
  · intro c hc
    by_cases hce : c = ""
    · subst hce
      simp [addWhistleblowerMessage, truthy, RestResult.isReject,
            RestResult.isOk]
    · have hfind := wf_find_scan_none hc
      simp [addWhistleblowerMessage, truthy, hce, hm, hfind,
            RestResult.isReject, RestResult.isOk]

/-- Witness for C8 at a concrete one-report store. -/
theorem C8_atomic_witness :
    addWhistleblowerMessage [wReport] (some (plainOf wReport)) (some "hello") [] 7 =
      (.ok 201 "Message added successfully."
         ⟨wReport.comments ++ [⟨none, "reporter", "hello", 7⟩],
          wReport.evidenceFiles⟩,
       [wReport].map (fun x => if x.id == wReport.id then
           { x with comments := x.comments ++ [⟨none, "reporter", "hello", 7⟩] }
         else x)) ∧
    ((addWhistleblowerMessage [wReport] (some "ZZZZZZ") (some "hello") [] 7).fst).isReject
      = true ∧
    (addWhistleblowerMessage [wReport] (some "ZZZZZZ") (some "hello") [] 7).snd
      = [wReport] := by
  have h := C8_atomic [wReport] (by decide) "hello" (by decide) 7
  exact ⟨h.1 wReport (by decide), (h.2 "ZZZZZZ" (by decide)).1,
         (h.2 "ZZZZZZ" (by decide)).2⟩

/-- After seeding, a sentinel "uncategorised" category is always
findable. -/
theorem seed_has_cat (st : Store) (catId agId : ObjectId) :
    ∃ c, (seedDefaults st catId agId).categories.find?
      (fun x => x.name == "uncategorised") = some c := by
  have main : ∀ st1 : Store,
      (∃ c, st1.categories.find? (fun x => x.name == "uncategorised") = some c) →
      ∃ c, (if st1.agencies.any (fun x => x.name == "unassigned") = true then st1
            else { st1 with
                   agencies := st1.agencies ++ [⟨agId, "unassigned"⟩] }).categories.find?
          (fun x => x.name == "uncategorised") = some c := by
    intro st1 h
    obtain ⟨c, hc⟩ := h
    refine ⟨c, ?_⟩
    split
    · exact hc
    · exact hc
  unfold seedDefaults
  by_cases h1 : st.categories.any (fun c => c.name == "uncategorised") = true
  · simp only [h1, if_true]
    apply main
    have hf : st.categories.find? (fun x => x.name == "uncategorised") ≠ none := by
      intro hf
      obtain ⟨x, hx, hpx⟩ := List.any_eq_true.mp h1
      exact absurd hpx (List.find?_eq_none.mp hf x hx)
    exact Option.ne_none_iff_exists'.mp hf
  · simp only [h1, Bool.false_eq_true, if_false]
    have hnone : st.categories.find? (fun x => x.name == "uncategorised") = none := by
      rw [List.find?_eq_none]
      intro x hx hpx
      exact h1 (List.any_eq_true.mpr ⟨x, hx, hpx⟩)
    have happ := find_append_of_none (fun x : Category => x.name == "uncategorised")
      st.categories [⟨catId, "uncategorised"⟩] hnone
    refine main ⟨st.reports, st.categories ++ [⟨catId, "uncategorised"⟩],
                 st.agencies⟩ ⟨⟨catId, "uncategorised"⟩, ?_⟩
    simp [happ, List.find?]

/-- After seeding, a sentinel "unassigned" agency is always findable. -/
theorem seed_has_ag (st : Store) (catId agId : ObjectId) :
    ∃ a, (seedDefaults st catId agId).agencies.find?
      (fun x => x.name == "unassigned") = some a := by
  have main : ∀ st1 : Store,
      ∃ a, (if st1.agencies.any (fun x => x.name == "unassigned") = true then st1
            else { st1 with
                   agencies := st1.agencies ++ [⟨agId, "unassigned"⟩] }).agencies.find?
          (fun x => x.name == "unassigned") = some a := by
    intro st1
    by_cases h1 : st1.agencies.any (fun x => x.name == "unassigned") = true
    · rw [if_pos h1]
      have hf : st1.agencies.find? (fun x => x.name == "unassigned") ≠ none := by
        intro hf
        obtain ⟨x, hx, hpx⟩ := List.any_eq_true.mp h1
        exact absurd hpx (List.find?_eq_none.mp hf x hx)
      exact Option.ne_none_iff_exists'.mp hf
    · rw [if_neg h1]
      have hnone : st1.agencies.find? (fun x => x.name == "unassigned") = none := by
        rw [List.find?_eq_none]
        intro x hx hpx
        exact h1 (List.any_eq_true.mpr ⟨x, hx, hpx⟩)
      have happ := find_append_of_none (fun x : Agency => x.name == "unassigned")
        st1.agencies [⟨agId, "unassigned"⟩] hnone
      refine ⟨⟨agId, "unassigned"⟩, ?_⟩
      simp [happ, List.find?]
  unfold seedDefaults
  exact main _

/-- Claim C9: a report created on a seeded store (as server startup
guarantees) without an explicit category or agency - createReport never
accepts either from the request - has its category and agencyAssigned
pointed at the sentinel "uncategorised" / "unassigned" records, not left
null. -/
theorem C9_sentinels (st : Store) (catId agId : ObjectId)
    (req : CreateReportRequest) (files : List UploadedFile)
    (env : CreationEnv) :
    ∀ r ∈ (createReport (seedDefaults st catId agId) req files env).snd.reports,
      r ∉ (seedDefaults st catId agId).reports →
      (∃ c, (seedDefaults st catId agId).categories.find?
          (fun x => x.name == "uncategorised") = some c ∧
          r.category = some c.id) ∧
      (∃ a, (seedDefaults st catId agId).agencies.find?
          (fun x => x.name == "unassigned") = some a ∧
          r.agencyAssigned = some a.id) := by
  intro r hmem hnot
  obtain ⟨c, hc⟩ := seed_has_cat st catId agId
  obtain ⟨a, ha⟩ := seed_has_ag st catId agId
  revert hmem
  simp only [createReport]
  split
  · intro hmem; exact absurd hmem hnot
  · split
    · intro hmem; exact absurd hmem hnot
    · split
      · intro hmem; exact absurd hmem hnot
      · split
        · intro hmem; exact absurd hmem hnot
        · intro hmem
          simp only [List.mem_append, List.mem_singleton] at hmem
          rcases hmem with hmem | hmem
          · exact absurd hmem hnot
          · subst hmem
            rw [hc, ha]
            exact ⟨⟨c, rfl, by simp [hc]⟩, ⟨a, rfl, by simp [ha]⟩⟩

/-- Witness for C9 on the seeded empty store. -/
theorem C9_sentinels_witness :
    createdSeeded.category = some 100 ∧
    createdSeeded.agencyAssigned = some 101 := by
  obtain ⟨⟨c, hc, hcat⟩, a, ha, hag⟩ :=
    C9_sentinels emptyStore 100 101 anonReq [] wEnv createdSeeded
      (by decide) (by decide)
  have hdc : (seedDefaults emptyStore 100 101).categories.find?
      (fun x => x.name == "uncategorised") = some ⟨100, "uncategorised"⟩ := by
    decide
  have hda : (seedDefaults emptyStore 100 101).agencies.find?
      (fun x => x.name == "unassigned") = some ⟨101, "unassigned"⟩ := by
    decide
  rw [hdc] at hc
  rw [hda] at ha
  cases hc
  cases ha
  exact ⟨hcat, hag⟩

/-- Claim C10: updateAgencyReportStatus authorizes by comparing the
report's agencyAssigned reference (an Agency id) with the calling user's
own id, so after assignReportToAgency points a report at an agency whose
id differs from the caller's user id, the agency status path rejects the
caller with 403 before any state change; and when the path does update
(agencyAssigned happens to equal the caller id), it applies no
allowed-status precheck - an invalid status only fails at schema
validation inside save - and no isResolved flag logic. -/
theorem C10_agency_auth (st : Store) (reportId agencyId callerId : ObjectId)
    (s : Option String) (now t : Nat)
    (hneq : agencyId ≠ callerId) (hs : truthy s = true) :
    (∀ (code : Nat) (msg : String) (fr : Report) (st2 : Store),
       assignReportToAgency st reportId agencyId now = (.ok code msg fr, st2) →
       updateAgencyReportStatus st2.reports callerId reportId s t =
         (.reject 403 "You are not authorized to update this report",
          st2.reports)) ∧
    (∀ (store : List Report) (r : Report),
       store.find? (fun x => x.id == reportId) = some r →
       r.agencyAssigned = some agencyId →
       updateAgencyReportStatus store callerId reportId s t =
         (.reject 403 "You are not authorized to update this report", store)) ∧
    (∀ (store : List Report) (r : Report),
       store.find? (fun x => x.id == reportId) = some r →
       r.agencyAssigned = some callerId →
       ∀ (code : Nat) (msg : String) (fr : Report),
         (updateAgencyReportStatus store callerId reportId s t).fst =
           .ok code msg fr →
         fr.isResolved = r.isResolved ∧ fr.status = s.getD "") ∧
    (∀ (store : List Report) (r : Report),
       store.find? (fun x => x.id == reportId) = some r →
       r.agencyAssigned = some callerId →
       validStatus (s.getD "") = false →
       (updateAgencyReportStatus store callerId reportId s t).fst =
         .reject 500 "Report validation failed: status is not a valid enum value.") := by
  have key : ∀ (store : List Report) (r : Report),
      store.find? (fun x => x.id == reportId) = some r →
      r.agencyAssigned = some agencyId →
      updateAgencyReportStatus store callerId reportId s t =
        (.reject 403 "You are not authorized to update this report", store) := by
    intro store r hr hag
    simp [updateAgencyReportStatus, hs, hr, hag, hneq]
  refine ⟨?_, key, ?_, ?_⟩
  · intro code msg fr st2 h
    simp only [assignReportToAgency] at h
    cases hfind : st.reports.find? (fun x => x.id == reportId) with
    | none => rw [hfind] at h; simp at h
    | some r =>
      rw [hfind] at h
      cases hfa : st.agencies.find? (fun x => x.id == agencyId) with
      | none => rw [hfa] at h; simp at h
      | some ag =>
        rw [hfa] at h
        by_cases hv : validStatus r.status = true
        · simp only [runSave, hv, Bool.not_true, Bool.false_eq_true,
                     if_false] at h
          rw [Prod.mk.injEq] at h
          obtain ⟨h1, h2⟩ := h
          rw [RestResult.ok.injEq] at h1
          obtain ⟨-, -, hfr⟩ := h1
          subst hfr
          subst h2
          have hagid : ag.id = agencyId := by
            simpa using List.find?_some hfa
          apply key _ { r with agencyAssigned := some ag.id }
          · exact find_putReport _ hfind rfl
          · simp [hagid]
        · have hv' : validStatus r.status = false := by
            cases hvv : validStatus r.status with
            | true => exact absurd hvv hv
            | false => rfl
          simp [runSave, hv'] at h
  · intro store r hr hag code msg fr h
    by_cases hv : validStatus (s.getD "") = true
    · simp [updateAgencyReportStatus, hs, hr, hag, runSave, setStatus, hv] at h
      obtain ⟨-, -, hfr⟩ := h
      subst hfr
      constructor
      · split <;> simp
      · split <;> simp
    · have hv' : validStatus (s.getD "") = false := by
        cases hvv : validStatus (s.getD "") with
        | true => exact absurd hvv hv
        | false => rfl
      simp [updateAgencyReportStatus, hs, hr, hag, runSave, setStatus, hv'] at h
  · intro store r hr hag hv
    simp [updateAgencyReportStatus, hs, hr, hag, runSave, setStatus, hv]

/-- Witness for C10: agency 7 is assigned to the report; user 9 is then
rejected by the agency status path with no state change, while the
self-matching id 7 updates the status without touching the flag. -/
theorem C10_agency_auth_witness :
    updateAgencyReportStatus [assignedW] 9 1 (some "resolved") 1 =
      (.reject 403 "You are not authorized to update this report",
       [assignedW]) ∧
    savedAgencyW.isResolved = assignedW.isResolved ∧
    savedAgencyW.status = "resolved" := by
  have h := C10_agency_auth wStore10 1 7 9 (some "resolved") 0 1
    (by decide) (by decide)
  have h1 := h.1 200 "Agency assigned successfully" assignedW
    ⟨[assignedW], [], [⟨7, "Env"⟩]⟩ (by decide)
  have h2 := C10_agency_auth wStore10 1 8 7 (some "resolved") 0 1
    (by decide) (by decide)
  have h3 := h2.2.2.1 [assignedW] assignedW (by decide) (by decide)
    200 "Status updated successfully" savedAgencyW (by decide)
  exact ⟨by simpa using h1, h3.1, by simpa using h3.2⟩

end WB
